import Mathlib

/-!
Verification development for the `sentry-telegram-plus` repository.

The Python sources (`sentry_telegram_plus/plugin.py` and
`sentry_telegram_plus/integration.py`) are shallowly embedded below:
strings are Lean `String`s manipulated through explicit character-list
helpers that mirror Python string methods, fallible Python code
(uncaught exceptions) is modelled with `Except`, and the subset of
Python's `re` module actually exercised by the plugin's filters is
embedded as a small executable regex engine.
-/

deriving instance DecidableEq for Except

namespace SentryTelegramPlus

/-! ### Python string helpers

Character-list implementations of the Python string operations the
plugin uses: `str.split(sep)`, `str.split(sep, maxsplit=1)`,
`str.strip()`, and slicing `s[:n]`.  Python indexes strings by code
point, as does `String.data` here. -/

/-- Python `str.strip()` whitespace test (ASCII fragment). -/
def isPySpace (c : Char) : Bool :=
  c = ' ' || c = '\t' || c = '\n' || c = '\r' || c = '\x0b' || c = '\x0c'

/-- Python `s.strip()` on a character list: drop whitespace from both ends. -/
def pyStrip (l : List Char) : List Char :=
  ((l.dropWhile isPySpace).reverse.dropWhile isPySpace).reverse

/-- Python `s.split(c)` for a one-character separator: `"a;;b" ↦ ["a","","b"]`,
`"" ↦ [""]`. -/
def splitChar (c : Char) : List Char → List (List Char)
  | [] => [[]]
  | x :: xs =>
    match splitChar c xs, decide (x = c) with
    | r, true => [] :: r
    | [], false => [[x]]
    | h :: t, false => (x :: h) :: t

/-- Helper for `s.split(c, maxsplit=1)`: position of the first separator,
as the pair of chunks around it. -/
def splitOnceAux (c : Char) : List Char → Option (List Char × List Char)
  | [] => none
  | x :: xs =>
    if x = c then some ([], xs)
    else (splitOnceAux c xs).map (fun p => (x :: p.1, p.2))

/-- Python `s.split(c, maxsplit=1)`. -/
def pySplitOnce (c : Char) (l : List Char) : List (List Char) :=
  match splitOnceAux c l with
  | none => [l]
  | some (a, b) => [a, b]

/-- Python slice `s[:n]` on a string (by code point, like Python). -/
def pyTake (s : String) (n : Nat) : String :=
  String.mk (s.data.take n)

/-- Python truthiness `a or b` for an optional string (`None` and `""` are falsy). -/
def pyOr (o : Option String) (dflt : String) : String :=
  match o with
  | none => dflt
  | some s => if s = "" then dflt else s

/-- Python `s.startswith(pre)` (by code point). -/
def pyStartsWith (s pre : String) : Bool :=
  pre.data.isPrefixOf s.data

/-- Python slice `s[n:]` (by code point). -/
def pyDrop (s : String) (n : Nat) : String :=
  String.mk (s.data.drop n)

/-! ### Embedded fragment of Python `re`

`_match_filter` calls `re.search(filter_value, text, re.IGNORECASE)`.
We embed the fragment of Python regex syntax the plugin's filter values
use: literal characters, `.` (any character except newline), `*` on the
preceding atom, and `[...]` character sets.  A pattern the parser
rejects models a pattern `re.compile` raises `re.error` on: `*` with
nothing to repeat, and an unterminated `[` character set. -/

inductive RAtom where
  | dot : RAtom
  | ch (c : Char) : RAtom
  | cls (cs : List Char) : RAtom
deriving DecidableEq

/-- One atom against one character, with `re.IGNORECASE` baked in
(the plugin always passes that flag). `.` does not match a newline. -/
def amatch : RAtom → Char → Bool
  | .dot, c => c ≠ '\n'
  | .ch a, c => a.toLower = c.toLower
  | .cls l, c => l.any (fun a => a.toLower = c.toLower)

/-- Parse a `[...]` character set: contents and remainder after `]`;
`none` models Python's "unterminated character set" `re.error`. -/
def parseCls : List Char → Option (List Char × List Char)
  | [] => none
  | c :: rest =>
    if c = ']' then some ([], rest)
    else (parseCls rest).map (fun p => (c :: p.1, p.2))

/-- One regex atom starting with character `c` (rest of pattern follows). -/
def parseAtom (c : Char) (rest : List Char) : Option (RAtom × List Char) :=
  if c = '.' then some (.dot, rest)
  else if c = '[' then (parseCls rest).map (fun p => (.cls p.1, p.2))
  else some (.ch c, rest)

/-- Fuel-bounded pattern parser: each step consumes at least one input
character, so fuel `l.length + 1` (supplied by `parseRegexGo`) never
runs out.  Fuel only discharges termination; it never changes a result.
`none` models `re.error` ("nothing to repeat", "multiple repeat",
"unterminated character set"). -/
def parseLoop : Nat → List Char → Option (List (RAtom × Bool))
  | 0, _ => none
  | _ + 1, [] => some []
  | fuel + 1, c :: rest =>
    if c = '*' then none
    else
      match parseAtom c rest with
      | none => none
      | some (a, r) =>
        match r with
        | '*' :: r2 => (parseLoop fuel r2).map (fun t => (a, true) :: t)
        | r2 => (parseLoop fuel r2).map (fun t => (a, false) :: t)

/-- Parse a whole pattern (see `parseLoop`). -/
def parseRegexGo (l : List Char) : Option (List (RAtom × Bool)) :=
  parseLoop (l.length + 1) l

/-- Fuel-bounded backtracking matcher for a parsed pattern against a
prefix-anchored position.  Every recursive call strictly decreases
`ps.length + cs.length`, so the fuel `ps.length + cs.length + 1`
supplied by `matchHere` never runs out. -/
def matchFuel : Nat → List (RAtom × Bool) → List Char → Bool
  | 0, _, _ => false
  | _ + 1, [], _ => true
  | _ + 1, (_, false) :: _, [] => false
  | fuel + 1, (a, false) :: ps2, c :: cs2 => amatch a c && matchFuel fuel ps2 cs2
  | fuel + 1, (a, true) :: ps2, cs =>
    matchFuel fuel ps2 cs ||
      (match cs with
       | [] => false
       | c :: cs2 => amatch a c && matchFuel fuel ((a, true) :: ps2) cs2)

/-- Match a parsed pattern at the start of `cs`. -/
def matchHere (ps : List (RAtom × Bool)) (cs : List Char) : Bool :=
  matchFuel (ps.length + cs.length + 1) ps cs

/-- Python `re.search`: try every start position. -/
def reSearch (ps : List (RAtom × Bool)) : List Char → Bool
  | [] => matchHere ps []
  | c :: cs2 => matchHere ps (c :: cs2) || reSearch ps cs2

/-! ### Data model

Mirrors the TypedDicts of `plugin.py` and the objects the plugin reads
from the host.  A missing-or-empty string field is modelled as `""`
where the source only ever tests it for truthiness (`api_token`,
`receivers`, filter `type`/`value`); fields read with `dict.get` keep
`Option`. -/

/-- Python exceptions that can escape the embedded functions. -/
inductive PyErr where
  /-- `re.error` from `re.search` on an uncompilable pattern. -/
  | reError : PyErr
  /-- `KeyError` from `str.format`, carrying the missing key. -/
  | keyError (k : String) : PyErr
deriving DecidableEq

/-- `bool(re.search(pattern, text, re.IGNORECASE))`, with `re.error`
(uncompilable pattern) modelled as an exception. -/
def reSearchI (pattern text : String) : Except PyErr Bool :=
  match parseRegexGo pattern.data with
  | none => .error .reError
  | some ps => .ok (reSearch ps text.data)

/-- One message-template item: Python `str.format` templates are
embedded structurally as literal runs, `{name}` fields, `{tag[name]}`
tag fields and the `{message}` field. -/
inductive TItem where
  | lit (s : String) : TItem
  | field (n : String) : TItem
  | tagf (n : String) : TItem
  | msg : TItem
deriving DecidableEq

/-- A message template (Python template string, structurally). -/
abbrev Template := List TItem

/-- `ChannelFilter` TypedDict: `{"type": ..., "value": ...}`; `""`
models a missing or empty entry (the source only distinguishes them by
truthiness). -/
structure ChannelFilter where
  ftype : String
  fvalue : String
deriving DecidableEq

/-- `ChannelConfig` TypedDict. -/
structure ChannelConfig where
  api_token : String := ""
  receivers : String := ""
  template : Option Template := none
  api_origin : Option String := none
  filters : List ChannelFilter := []
deriving DecidableEq

/-- The project of an event (`event.project` may be `None`). -/
structure ProjectRef where
  slug : String
deriving DecidableEq

/-- The read-only event view the plugin consumes. -/
structure Event where
  message : Option String := none
  title : String := ""
  level : String := ""
  tags : List (String × String) := []
  project : Option ProjectRef := none
  platform : Option String := none
  datetime : Option String := none
deriving DecidableEq

/-- The group/project context used by `build_message`. -/
structure GroupCtx where
  projectName : String := ""
  absoluteUrl : String := ""
  shortId : String := ""
  timesSeen : Nat := 0
deriving DecidableEq

/-- Python `dict` assignment `d[k] = v` (replace existing key else append). -/
def dictUpsert (k v : String) : List (String × String) → List (String × String)
  | [] => [(k, v)]
  | (k2, v2) :: rest => if k2 = k then (k2, v) :: rest else (k2, v2) :: dictUpsert k v rest

/-- Python `dict(pairs)`: insertion order, duplicate keys keep the last value. -/
def dictOf (l : List (String × String)) : List (String × String) :=
  l.foldl (fun acc kv => dictUpsert kv.1 kv.2 acc) []

/-- First-match association-list lookup (keys are unique after `dictOf`). -/
def lookupS (k : String) : List (String × String) → Option String
  | [] => none
  | (k2, v) :: rest => if k = k2 then some v else lookupS k rest

/-! ### Filter Matcher (`TelegramNotificationsPlugin._match_filter`) -/

/-- `_match_filter(event, filter_type, filter_value)`: the `if`-chain of
`plugin.py` lines 288-306.  `re.error` from a malformed pattern is not
caught in the source and escapes as `.error .reError`. -/
def matchFilter (ev : Event) (filterType filterValue : String) : Except PyErr Bool :=
  if filterType = "regex__message" then
    reSearchI filterValue (ev.message.getD "")
  else if filterType = "regex__title" then
    reSearchI filterValue ev.title
  else if pyStartsWith filterType "tag__" then
    -- filter_type.split("__", 1)[1]: everything after the first "__"
    let tagName := pyDrop filterType 5
    match lookupS tagName (dictOf ev.tags) with
    | none => .ok false
    | some tv =>
      -- bool(tag_value and re.search(...)): empty value short-circuits
      if tv = "" then .ok false else reSearchI filterValue tv
  else if filterType = "level" then
    .ok (ev.level = filterValue)
  else if filterType = "project_slug" then
    -- `event.project and event.project.slug == filter_value` (None is falsy)
    .ok (match ev.project with
         | none => false
         | some p => p.slug = filterValue)
  else if filterType = "value__tag" then
    .ok ((dictOf ev.tags).any (fun kv => kv.2 = filterValue))
  else
    .ok false

/-! ### Message Renderer
(`_escape_markdown_v1`, `compile_message_text`, `build_message`) -/

/-- `TELEGRAM_MAX_MESSAGE_LENGTH` (`plugin.py` line 20). -/
def TELEGRAM_MAX_MESSAGE_LENGTH : Nat := 4096

/-- `EVENT_TITLE_MAX_LENGTH` (`plugin.py` line 21). -/
def EVENT_TITLE_MAX_LENGTH : Nat := 500

/-- The special characters of `_escape_markdown_v1` (the Python string
literal of underscore, asterisk, backtick, opening bracket). -/
def specialChars : List Char := ['_', '*', Char.ofNat 96, '[']

/-- `_escape_markdown_v1`: prepend a backslash to each Markdown-v1
special character; other characters pass through unchanged. -/
def escapeMarkdownV1 (text : String) : String :=
  String.join (text.data.map (fun c =>
    if c ∈ specialChars then String.mk ['\\', c] else String.mk [c]))

/-- Python `str.format` over a structural template: fields are looked up
in `params` (first missing field raises `KeyError`, left to right), tag
fields in the `defaultdict` `tags` (default `"[NA]"`), and `{message}`
is the explicitly passed keyword. -/
def formatT : Template → List (String × String) → List (String × String) → String →
    Except String String
  | [], _, _, _ => .ok ""
  | .lit a :: rest, p, tg, m => (formatT rest p tg m).map (fun s => a ++ s)
  | .field n :: rest, p, tg, m =>
    match lookupS n p with
    | some v => (formatT rest p tg m).map (fun s => v ++ s)
    | none => .error n
  | .tagf n :: rest, p, tg, m =>
    (formatT rest p tg m).map (fun s => ((lookupS n tg).getD "[NA]") ++ s)
  | .msg :: rest, p, tg, m => (formatT rest p tg m).map (fun s => m ++ s)

/-- The truncation marker of `compile_message_text`. -/
def truncateWarningText : String := "... (truncated)"

/-- Number of `{message}` fields in a template. -/
def msgCount : Template → Nat
  | [] => 0
  | .msg :: rest => msgCount rest + 1
  | _ :: rest => msgCount rest

/-- The distinct missing non-tag field names of a template under a
parameter mapping, in first-occurrence order (later occurrences are
covered by the `"-"` binding the retry would add). -/
def missingFields : Template → List (String × String) → List String
  | [], _ => []
  | .field n :: rest, p =>
    (match lookupS n p with
     | some _ => missingFields rest p
     | none => n :: missingFields rest ((n, "-") :: p))
  | _ :: rest, p => missingFields rest p

/-- The first `try/except KeyError` block of `compile_message_text`:
`len(message_template.format(**message_params, message=truncate_warning_text))`,
retried once with the missing key mapped to `"-"`; a second distinct
missing key escapes as `KeyError`. -/
def lenWithMarkerE (tmpl : Template) (params tags : List (String × String)) :
    Except PyErr Nat :=
  match formatT tmpl params tags truncateWarningText with
  | .ok s => .ok s.data.length
  | .error k =>
    match formatT tmpl ((k, "-") :: params) tags truncateWarningText with
    | .ok s => .ok s.data.length
    | .error k2 => .error (.keyError k2)

/-- `max_message_body_len` after the clamp `if max_message_body_len < 0:
max_message_body_len = 0`. -/
def maxBodyLen (lenWithMarker : Nat) : Nat :=
  (let raw : Int := (TELEGRAM_MAX_MESSAGE_LENGTH : Int) - (lenWithMarker : Int)
   if raw < 0 then 0 else raw).toNat

/-- The `event_message` value after the truncation step of
`compile_message_text`: shrunk to `max_message_body_len` with the marker
appended when it does not fit, unchanged otherwise. -/
def emAfter (eventMessage : String) (lenWithMarker : Nat) : String :=
  if eventMessage.data.length > maxBodyLen lenWithMarker then
    pyTake eventMessage (maxBodyLen lenWithMarker) ++ truncateWarningText
  else eventMessage

/-- `compile_message_text(message_template, message_params, event_message)`
(`plugin.py` lines 164-208).  Each of the two `str.format` calls is
wrapped in a single `try/except KeyError` that retries once with the
missing key mapped to `"-"`; a second distinct missing key escapes as
`KeyError`. -/
def compileMessageText (tmpl : Template) (params : List (String × String))
    (tags : List (String × String)) (eventMessage : String) : Except PyErr String :=
  match lenWithMarkerE tmpl params tags with
  | .error e => .error e
  | .ok lenWithMarker =>
    match formatT tmpl params tags (emAfter eventMessage lenWithMarker) with
    | .ok s => .ok s
    | .error k =>
      match formatT tmpl ((k, "-") :: params) tags (emAfter eventMessage lenWithMarker) with
      | .ok s => .ok s
      | .error k2 => .error (.keyError k2)

/-- Modelled from the spec: `truncatechars` is imported from the host
(`sentry.utils.strings`), whose source is not part of this repository;
the spec says the title is "pre-truncated to a title cap, e.g. 500
chars, before substitution", so it is modelled as plain character
truncation to the cap. -/
def truncatechars (s : String) (n : Nat) : String :=
  if s.data.length > n then pyTake s n else s

/-- `event.message or "пустое сообщение :("`. -/
def eventMessageOrPlaceholder (m : Option String) : String :=
  pyOr m "пустое сообщение :("

/-- The `message_params` dict built by `build_message`
(`plugin.py` lines 218-228), stringified values. -/
def buildMessageParams (g : GroupCtx) (ev : Event) : List (String × String) :=
  [("title", escapeMarkdownV1 (truncatechars ev.title EVENT_TITLE_MAX_LENGTH)),
   ("project_name", g.projectName),
   ("url", g.absoluteUrl),
   ("short_id", g.shortId),
   ("times_seen", toString g.timesSeen),
   ("platform", pyOr ev.platform "[NA]"),
   ("event_datetime", pyOr ev.datetime "[NA]"),
   ("event_level", (lookupS "level" (dictOf ev.tags)).getD "[NA]")]

/-- `build_message(group, event, message_template)`: the `text` entry of
the returned payload (`parse_mode` is the constant `"Markdown"`). -/
def buildMessage (g : GroupCtx) (ev : Event) (tmpl : Template) : Except PyErr String :=
  compileMessageText tmpl (buildMessageParams g ev) (dictOf ev.tags)
    (escapeMarkdownV1 (eventMessageOrPlaceholder ev.message))

/-! ### Dispatcher helpers (`build_url`, `get_receivers_list`) -/

/-- `build_url(api_origin, api_token)`. -/
def buildUrl (apiOrigin apiToken : String) : String :=
  apiOrigin ++ "/bot" ++ apiToken ++ "/sendMessage"

/-- `stripped_part.split("/", maxsplit=1)` as a list of strings. -/
def splitReceiverPart (l : List Char) : List String :=
  (pySplitOnce '/' l).map String.mk

/-- `get_receivers_list(receivers_str)` (`plugin.py` lines 252-261):
split on `";"`, strip each part, skip empty parts, split each remaining
part on the first `"/"`. -/
def getReceiversList (receiversStr : String) : List (List String) :=
  if receiversStr = "" then []
  else
    (splitChar ';' receiversStr.data).foldl
      (fun acc part =>
        if pyStrip part = [] then acc else acc ++ [splitReceiverPart (pyStrip part)])
      []

/-- The spec's description of receiver parsing, as a pipeline: "split on
`;`, trim whitespace, skip empty segments, split each segment on first
`/` into chat_id/thread_id" (spec §4.4).  Stated from the spec's words
to compare against `getReceiversList`. -/
def parseReceiversSpec (receiversStr : String) : List (List String) :=
  (((splitChar ';' receiversStr.data).map pyStrip).filter
    (fun part => part ≠ [])).map splitReceiverPart

/-! ### Channel Resolver (`TelegramNotificationsPlugin._get_matching_channels`) -/

/-- The inner filter loop of `_get_matching_channels` (lines 364-374):
`all_filters_match` starts `True` and the loop breaks to `False` at the
first filter whose `type`/`value` is falsy or whose `_match_filter` is
falsy; `_match_filter` may raise (`re.error` propagates). -/
def allFiltersMatch (ev : Event) : List ChannelFilter → Except PyErr Bool
  | [] => .ok true
  | f :: rest =>
    if f.ftype = "" || f.fvalue = "" then .ok false
    else do
      let b ← matchFilter ev f.ftype f.fvalue
      if b then allFiltersMatch ev rest else .ok false

/-- What one iteration of the channel loop appends to
`matching_channels`: a channel with empty `filters` is appended
unconditionally; a channel with non-empty `filters` is appended when
they all match. -/
def channelStep (ev : Event) (ch : ChannelConfig) : Except PyErr (List ChannelConfig) := do
  let base := if ch.filters.isEmpty then [ch] else []
  let m ← allFiltersMatch ev ch.filters
  .ok (base ++ (if m && !ch.filters.isEmpty then [ch] else []))

/-- The channel loop of `_get_matching_channels`. -/
def matchingLoop (ev : Event) : List ChannelConfig → Except PyErr (List ChannelConfig)
  | [] => .ok []
  | ch :: rest => do
    let a ← channelStep ev ch
    let b ← matchingLoop ev rest
    .ok (a ++ b)

/-- `_get_matching_channels(event, channels_config)` (lines 351-385).
The source's `default_channel` local is initialised to `None` and never
assigned, so the trailing fallback `if not matching_channels and
default_channel` can never append anything; it is kept verbatim. -/
def getMatchingChannels (ev : Event) (channelsConfig : List ChannelConfig) :
    Except PyErr (List ChannelConfig) := do
  let matching ← matchingLoop ev channelsConfig
  let defaultChannel : Option ChannelConfig := none
  .ok (if matching.isEmpty then
         (match defaultChannel with
          | some d => matching ++ [d]
          | none => matching)
       else matching)

/-! ### Dispatcher (`notify_users`, `send_message`) -/

/-- One `send_message` call issued by `notify_users`: the delivery URL,
the rendered payload text (`parse_mode` is always `"Markdown"`), and the
parsed receiver (`[chat_id]` or `[chat_id, thread_id]`). -/
structure DispatchRec where
  url : String
  text : String
  receiver : List String
deriving DecidableEq

/-- The per-channel body of the `notify_users` loop (lines 412-444),
minus the actual transport calls: which sends this channel produces.
Channels missing `api_token`/`receivers`, or whose receivers string
parses to nothing, are skipped (`continue`). -/
def channelDispatches (g : GroupCtx) (ev : Event) (defaultTemplate : Template)
    (globalOrigin : String) (ch : ChannelConfig) : Except PyErr (List DispatchRec) :=
  if ch.api_token = "" || ch.receivers = "" then .ok []
  else
    let receivers := getReceiversList ch.receivers
    if receivers = [] then .ok []
    else do
      -- channel_to_send.get("template") or default_template
      let tmpl := match ch.template with
                  | none => defaultTemplate
                  | some t => if t.isEmpty then defaultTemplate else t
      let text ← buildMessage g ev tmpl
      let url := buildUrl (ch.api_origin.getD globalOrigin) ch.api_token
      .ok (receivers.map (fun r => { url := url, text := text, receiver := r }))

/-- The loop over `matching_channels` in `notify_users`. -/
def notifyLoop (g : GroupCtx) (ev : Event) (dt : Template) (origin : String) :
    List ChannelConfig → Except PyErr (List DispatchRec)
  | [] => .ok []
  | ch :: rest => do
    let d ← channelDispatches g ev dt origin ch
    let ds ← notifyLoop g ev dt origin rest
    .ok (d ++ ds)

/-- `notify_users(group, event)` (lines 387-444), given the already
loaded channel configuration, default template and global API origin
(`_get_channels_config_data` reads them from host option storage):
the list of `send_message` calls it issues. -/
def notifyDispatches (g : GroupCtx) (ev : Event) (channelsConfig : List ChannelConfig)
    (dt : Template) (origin : String) : Except PyErr (List DispatchRec) :=
  if channelsConfig.isEmpty then .ok []
  else do
    let matching ← getMatchingChannels ev channelsConfig
    if matching.isEmpty then .ok []
    else notifyLoop g ev dt origin matching

/-! ### Transport model (`send_message`, `safe_execute`)

`safe_urlopen` is the host's HTTP client; it is modelled as an oracle
from URL and JSON body to either a raised exception or a status code. -/

/-- The JSON body `send_message` posts for one receiver. -/
structure SendPayload where
  chatId : String
  text : String
  threadId : Option String
deriving DecidableEq

/-- Transport oracle: `.error` models a raised exception, `.ok n` a
response with status code `n`. -/
def Transport : Type := String → SendPayload → Except String Nat

/-- `send_message(url, payload, receiver)` (lines 263-286): builds the
per-receiver payload and posts it; `response.raise_for_status()` raises
for status ≥ 400 and the surrounding `try/except Exception` swallows
everything, so the call never raises.  Returns whether delivery
succeeded.  (`receiver[0]` on an empty receiver would raise IndexError
before the `try`, caught by the `safe_execute` wrapper in
`notify_users`; parsed receivers are never empty.) -/
def sendOutcome (tr : Transport) (d : DispatchRec) : Bool :=
  match d.receiver with
  | [] => false
  | chatId :: rest =>
    match tr d.url { chatId := chatId, text := d.text, threadId := rest.head? } with
    | .error _ => false
    | .ok status => status < 400

/-- `notify_users` with the transport calls included: each dispatch is
paired with its delivery outcome.  `safe_execute(self.send_message,
...)` cannot raise, so the loop always reaches every receiver. -/
def notifySendsLoop (tr : Transport) (g : GroupCtx) (ev : Event) (dt : Template)
    (origin : String) : List ChannelConfig → Except PyErr (List (DispatchRec × Bool))
  | [] => .ok []
  | ch :: rest => do
    let d ← channelDispatches g ev dt origin ch
    let sent := d.map (fun disp => (disp, sendOutcome tr disp))
    let others ← notifySendsLoop tr g ev dt origin rest
    .ok (sent ++ others)

/-- `notify_users` including transport: the full embedded dispatcher. -/
def notifySends (tr : Transport) (g : GroupCtx) (ev : Event)
    (channelsConfig : List ChannelConfig) (dt : Template) (origin : String) :
    Except PyErr (List (DispatchRec × Bool)) :=
  if channelsConfig.isEmpty then .ok []
  else do
    let matching ← getMatchingChannels ev channelsConfig
    if matching.isEmpty then .ok []
    else notifySendsLoop tr g ev dt origin matching

/-! ### Integration variant
(`TelegramRoutingIntegration._channel_matches_filters`,
`integration.py` lines 320-355) -/

/-- `_channel_matches_filters(event, filters)`: AND over filters, but a
filter with falsy `type` or `value` is skipped with `continue` (treated
as passing), unlike the plugin's loop; unknown filter types also fall
through to `continue`.  `re.search` exceptions are again uncaught. -/
def channelMatchesFilters (ev : Event) : List ChannelFilter → Except PyErr Bool
  | [] => .ok true
  | f :: rest =>
    if f.ftype = "" || f.fvalue = "" then channelMatchesFilters ev rest
    else if f.ftype = "regex__message" then do
      let b ← reSearchI f.fvalue (ev.message.getD "")
      if b then channelMatchesFilters ev rest else .ok false
    else if f.ftype = "regex__title" then do
      let b ← reSearchI f.fvalue ev.title
      if b then channelMatchesFilters ev rest else .ok false
    else if pyStartsWith f.ftype "tag__" then
      match lookupS (pyDrop f.ftype 5) (dictOf ev.tags) with
      | none => .ok false
      | some tv => do
        let b ← reSearchI f.fvalue tv
        if b then channelMatchesFilters ev rest else .ok false
    else if f.ftype = "level" then
      if ev.level = f.fvalue then channelMatchesFilters ev rest else .ok false
    else if f.ftype = "project_slug" then
      match ev.project with
      | some p =>
        if p.slug = f.fvalue then channelMatchesFilters ev rest else .ok false
      | none => channelMatchesFilters ev rest
    else channelMatchesFilters ev rest

/-- A 4090-character literal, used to exhibit templates whose static
part alone nearly fills the Telegram message budget. -/
def bigA : String := String.mk (List.replicate 4090 'A')

/-! ### Supporting lemmas -/

theorem exmap_ok {ε α β : Type} (f : α → β) (x : α) :
    (Except.ok x : Except ε α).map f = .ok (f x) := rfl

theorem exmap_error {ε α β : Type} (f : α → β) (e : ε) :
    (Except.error e : Except ε α).map f = .error e := rfl

theorem exbind_ok {ε α β : Type} (f : α → Except ε β) (x : α) :
    (Except.ok x : Except ε α) >>= f = f x := rfl

theorem exbind_error {ε α β : Type} (f : α → Except ε β) (e : ε) :
    (Except.error e : Except ε α) >>= f = .error e := rfl

theorem data_append (a b : String) : (a ++ b).data = a.data ++ b.data := rfl

theorem mk_data (l : List Char) : (String.mk l).data = l := rfl

/-- Rendering succeeds with one string for each message value, and the
output length is affine in the message length with slope `msgCount`. -/
theorem formatT_linear :
    ∀ (t : Template) (p tg : List (String × String)) (m s : String),
      formatT t p tg m = .ok s → ∀ m' : String, ∃ s' : String,
        formatT t p tg m' = .ok s' ∧
          s'.data.length + msgCount t * m.data.length =
            s.data.length + msgCount t * m'.data.length := by
  intro t
  induction t with
  | nil =>
    intro p tg m s h m'
    rw [formatT] at h
    injection h with h
    exact ⟨"", rfl, by simp [msgCount, ← h]⟩
  | cons it rest ih =>
    intro p tg m s h m'
    cases it with
    | lit a =>
      rw [formatT] at h
      cases hr : formatT rest p tg m with
      | error k => rw [hr, exmap_error] at h; exact absurd h (by simp)
      | ok s1 =>
        rw [hr, exmap_ok] at h
        injection h with h
        obtain ⟨s2, h2, heq⟩ := ih p tg m s1 hr m'
        refine ⟨a ++ s2, by rw [formatT, h2, exmap_ok], ?_⟩
        simp only [← h, msgCount, data_append, List.length_append]
        omega
    | field n =>
      rw [formatT] at h
      cases hl : lookupS n p with
      | none => rw [hl] at h; exact absurd h (by simp)
      | some v =>
        rw [hl] at h
        dsimp only at h
        cases hr : formatT rest p tg m with
        | error k => rw [hr, exmap_error] at h; exact absurd h (by simp)
        | ok s1 =>
          rw [hr, exmap_ok] at h
          injection h with h
          obtain ⟨s2, h2, heq⟩ := ih p tg m s1 hr m'
          refine ⟨v ++ s2, by rw [formatT, hl]; dsimp only; rw [h2, exmap_ok], ?_⟩
          simp only [← h, msgCount, data_append, List.length_append]
          omega
    | tagf n =>
      rw [formatT] at h
      cases hr : formatT rest p tg m with
      | error k => rw [hr, exmap_error] at h; exact absurd h (by simp)
      | ok s1 =>
        rw [hr, exmap_ok] at h
        injection h with h
        obtain ⟨s2, h2, heq⟩ := ih p tg m s1 hr m'
        refine ⟨((lookupS n tg).getD "[NA]") ++ s2, by rw [formatT, h2, exmap_ok], ?_⟩
        simp only [← h, msgCount, data_append, List.length_append]
        omega
    | msg =>
      rw [formatT] at h
      cases hr : formatT rest p tg m with
      | error k => rw [hr, exmap_error] at h; exact absurd h (by simp)
      | ok s1 =>
        rw [hr, exmap_ok] at h
        injection h with h
        obtain ⟨s2, h2, heq⟩ := ih p tg m s1 hr m'
        refine ⟨m' ++ s2, by rw [formatT, h2, exmap_ok], ?_⟩
        simp only [← h, msgCount, data_append, List.length_append, Nat.add_mul, Nat.one_mul]
        omega

/-- The head of the missing-fields list really is missing. -/
theorem missingFields_head_none :
    ∀ (t : Template) (p : List (String × String)) (k : String) (ks : List String),
      missingFields t p = k :: ks → lookupS k p = none := by
  intro t
  induction t with
  | nil => intro p k ks h; simp [missingFields] at h
  | cons it rest ih =>
    intro p k ks h
    cases it with
    | lit a => exact ih p k ks h
    | tagf n => exact ih p k ks h
    | msg => exact ih p k ks h
    | field n =>
      rw [missingFields] at h
      cases hl : lookupS n p with
      | some v => rw [hl] at h; exact ih p k ks h
      | none =>
        rw [hl] at h
        dsimp only at h
        injection h with h1 h2
        rw [← h1]
        exact hl

/-- With no missing fields, rendering succeeds (for any message). -/
theorem missingFields_nil_ok :
    ∀ (t : Template) (p tg : List (String × String)) (m : String),
      missingFields t p = [] → ∃ s, formatT t p tg m = .ok s := by
  intro t
  induction t with
  | nil => intro p tg m _; exact ⟨"", rfl⟩
  | cons it rest ih =>
    intro p tg m h
    cases it with
    | lit a =>
      obtain ⟨s1, h1⟩ := ih p tg m h
      exact ⟨a ++ s1, by rw [formatT, h1, exmap_ok]⟩
    | tagf n =>
      obtain ⟨s1, h1⟩ := ih p tg m h
      exact ⟨((lookupS n tg).getD "[NA]") ++ s1, by rw [formatT, h1, exmap_ok]⟩
    | msg =>
      obtain ⟨s1, h1⟩ := ih p tg m h
      exact ⟨m ++ s1, by rw [formatT, h1, exmap_ok]⟩
    | field n =>
      rw [missingFields] at h
      cases hl : lookupS n p with
      | none => rw [hl] at h; simp at h
      | some v =>
        rw [hl] at h
        dsimp only at h
        obtain ⟨s1, h1⟩ := ih p tg m h
        exact ⟨v ++ s1, by rw [formatT, hl]; dsimp only; rw [h1, exmap_ok]⟩

/-- With a non-empty missing-fields list, rendering raises `KeyError`
on its head. -/
theorem missingFields_cons_error :
    ∀ (t : Template) (p tg : List (String × String)) (m : String)
      (k : String) (ks : List String),
      missingFields t p = k :: ks → formatT t p tg m = .error k := by
  intro t
  induction t with
  | nil => intro p tg m k ks h; simp [missingFields] at h
  | cons it rest ih =>
    intro p tg m k ks h
    cases it with
    | lit a =>
      rw [formatT, ih p tg m k ks h, exmap_error]
    | tagf n =>
      rw [formatT, ih p tg m k ks h, exmap_error]
    | msg =>
      rw [formatT, ih p tg m k ks h, exmap_error]
    | field n =>
      rw [missingFields] at h
      rw [formatT]
      cases hl : lookupS n p with
      | none =>
        rw [hl] at h
        dsimp only at h
        injection h with h1 h2
        dsimp only
        rw [h1]
      | some v =>
        rw [hl] at h
        dsimp only at h
        dsimp only
        rw [ih p tg m k ks h, exmap_error]

/-- Binding the first missing field to the fallback leaves exactly the
remaining missing fields. -/
theorem missingFields_tail :
    ∀ (t : Template) (p : List (String × String)) (k : String) (ks : List String),
      missingFields t p = k :: ks → missingFields t ((k, "-") :: p) = ks := by
  intro t
  induction t with
  | nil => intro p k ks h; simp [missingFields] at h
  | cons it rest ih =>
    intro p k ks h
    cases it with
    | lit a => exact ih p k ks h
    | tagf n => exact ih p k ks h
    | msg => exact ih p k ks h
    | field n =>
      rw [missingFields] at h ⊢
      cases hl : lookupS n p with
      | some v =>
        rw [hl] at h
        have hk : lookupS k p = none := missingFields_head_none rest p k ks h
        have hne : ¬(n = k) := by
          intro he
          rw [he, hk] at hl
          exact absurd hl (by simp)
        rw [lookupS, if_neg hne, hl]
        dsimp only
        exact ih p k ks h
      | none =>
        rw [hl] at h
        dsimp only at h
        injection h with h1 h2
        subst h1
        rw [lookupS, if_pos rfl]
        dsimp only
        exact h2

theorem marker_len : truncateWarningText.data.length = 15 := by decide

theorem maxBodyLen_of_le (L : Nat) (h : L ≤ TELEGRAM_MAX_MESSAGE_LENGTH) :
    maxBodyLen L = TELEGRAM_MAX_MESSAGE_LENGTH - L := by
  simp only [maxBodyLen, TELEGRAM_MAX_MESSAGE_LENGTH] at *
  split <;> omega

theorem emAfter_len (em : String) (L : Nat) :
    (emAfter em L).data.length =
      if em.data.length > maxBodyLen L then maxBodyLen L + 15 else em.data.length := by
  rw [emAfter]
  split
  · next hgt =>
    simp only [data_append, List.length_append, marker_len, pyTake, List.length_take]
    omega
  · rfl

/-- A rendering error (the missing key) does not depend on the message. -/
theorem formatT_error_indep :
    ∀ (t : Template) (p tg : List (String × String)) (m : String) (k : String),
      formatT t p tg m = .error k → ∀ m' : String, formatT t p tg m' = .error k := by
  intro t
  induction t with
  | nil => intro p tg m k h; rw [formatT] at h; exact absurd h (by simp)
  | cons it rest ih =>
    intro p tg m k h m'
    cases it with
    | lit a =>
      rw [formatT] at h ⊢
      cases hr : formatT rest p tg m with
      | error k2 =>
        rw [hr, exmap_error] at h
        injection h with h
        rw [ih p tg m k2 hr m', exmap_error, h]
      | ok s1 => rw [hr, exmap_ok] at h; exact absurd h (by simp)
    | field n =>
      rw [formatT] at h ⊢
      cases hl : lookupS n p with
      | none =>
        rw [hl] at h
        dsimp only at h ⊢
        exact h
      | some v =>
        rw [hl] at h
        dsimp only at h ⊢
        cases hr : formatT rest p tg m with
        | error k2 =>
          rw [hr, exmap_error] at h
          injection h with h
          rw [ih p tg m k2 hr m', exmap_error, h]
        | ok s1 => rw [hr, exmap_ok] at h; exact absurd h (by simp)
    | tagf n =>
      rw [formatT] at h ⊢
      cases hr : formatT rest p tg m with
      | error k2 =>
        rw [hr, exmap_error] at h
        injection h with h
        rw [ih p tg m k2 hr m', exmap_error, h]
      | ok s1 => rw [hr, exmap_ok] at h; exact absurd h (by simp)
    | msg =>
      rw [formatT] at h ⊢
      cases hr : formatT rest p tg m with
      | error k2 =>
        rw [hr, exmap_error] at h
        injection h with h
        rw [ih p tg m k2 hr m', exmap_error, h]
      | ok s1 => rw [hr, exmap_ok] at h; exact absurd h (by simp)

/-- Helper: the compile pipeline under a successful length computation.
If the first `format` block succeeded with length `L ≤ 4096` and the
template mentions `{message}` at most once, the final text fits in
4096 characters and is the render of the (possibly truncated) message
with the original parameters (possibly extended by one `"-"` fallback). -/
theorem compile_fits (t : Template) (p tg : List (String × String)) (em : String) (L : Nat)
    (hcount : msgCount t ≤ 1) (hlen : lenWithMarkerE t p tg = .ok L)
    (hfit : L ≤ TELEGRAM_MAX_MESSAGE_LENGTH) :
    ∃ s : String, compileMessageText t p tg em = .ok s ∧
      s.data.length ≤ TELEGRAM_MAX_MESSAGE_LENGTH ∧
      ∃ p2 em2, (p2 = p ∨ ∃ k, p2 = (k, "-") :: p) ∧
        (em2 = em ∨ em2 = pyTake em (maxBodyLen L) ++ truncateWarningText) ∧
        formatT t p2 tg em2 = .ok s := by
  have hmain := hlen
  rw [lenWithMarkerE] at hlen
  have hem2 : emAfter em L = em ∨
      emAfter em L = pyTake em (maxBodyLen L) ++ truncateWarningText := by
    rw [emAfter]
    split
    · exact Or.inr rfl
    · exact Or.inl rfl
  have hemlen : (emAfter em L).data.length ≤ (TELEGRAM_MAX_MESSAGE_LENGTH - L) + 15 := by
    rw [emAfter_len, maxBodyLen_of_le L hfit]
    split <;> omega
  cases h0 : formatT t p tg truncateWarningText with
  | ok s0 =>
    rw [h0] at hlen
    injection hlen with hL
    obtain ⟨s, hs, harith⟩ :=
      formatT_linear t p tg truncateWarningText s0 h0 (emAfter em L)
    refine ⟨s, ?_, ?_, p, emAfter em L, Or.inl rfl, hem2, hs⟩
    · rw [compileMessageText, hmain]
      dsimp only
      rw [hs]
    · rw [marker_len, hL] at harith
      have hc : msgCount t = 0 ∨ msgCount t = 1 := by omega
      cases hc with
      | inl hc =>
        rw [hc] at harith
        simp only [Nat.zero_mul, Nat.add_zero] at harith
        omega
      | inr hc =>
        rw [hc] at harith
        simp only [Nat.one_mul] at harith
        omega
  | error k =>
    rw [h0] at hlen
    dsimp only at hlen
    cases h1 : formatT t ((k, "-") :: p) tg truncateWarningText with
    | error k2 =>
      rw [h1] at hlen
      exact absurd hlen (by simp)
    | ok s0 =>
      rw [h1] at hlen
      dsimp only at hlen
      injection hlen with hL
      obtain ⟨s, hs, harith⟩ :=
        formatT_linear t ((k, "-") :: p) tg truncateWarningText s0 h1 (emAfter em L)
      have herr : formatT t p tg (emAfter em L) = .error k :=
        formatT_error_indep t p tg truncateWarningText k h0 _
      refine ⟨s, ?_, ?_, (k, "-") :: p, emAfter em L, Or.inr ⟨k, rfl⟩, hem2, hs⟩
      · rw [compileMessageText, hmain]
        dsimp only
        rw [herr]
        dsimp only
        rw [hs]
      · rw [marker_len, hL] at harith
        have hc : msgCount t = 0 ∨ msgCount t = 1 := by omega
        cases hc with
        | inl hc =>
          rw [hc] at harith
          simp only [Nat.zero_mul, Nat.add_zero] at harith
          omega
        | inr hc =>
          rw [hc] at harith
          simp only [Nat.one_mul] at harith
          omega

/-- Helper: with exactly one distinct missing non-tag field, the
compile pipeline recovers by substituting `"-"` for it. -/
theorem compile_one_missing (t : Template) (p tg : List (String × String))
    (em : String) (k : String) (h : missingFields t p = [k]) :
    ∃ em2 s, compileMessageText t p tg em = .ok s ∧
      formatT t ((k, "-") :: p) tg em2 = .ok s := by
  have h0 : formatT t p tg truncateWarningText = .error k :=
    missingFields_cons_error t p tg truncateWarningText k [] h
  have htail : missingFields t ((k, "-") :: p) = [] := missingFields_tail t p k [] h
  obtain ⟨s0, h1⟩ := missingFields_nil_ok t ((k, "-") :: p) tg truncateWarningText htail
  have hmain : lenWithMarkerE t p tg = .ok s0.data.length := by
    rw [lenWithMarkerE, h0]
    dsimp only
    rw [h1]
  have herr : formatT t p tg (emAfter em s0.data.length) = .error k :=
    missingFields_cons_error t p tg _ k [] h
  obtain ⟨s, hs⟩ :=
    missingFields_nil_ok t ((k, "-") :: p) tg (emAfter em s0.data.length) htail
  refine ⟨emAfter em s0.data.length, s, ?_, hs⟩
  rw [compileMessageText, hmain]
  dsimp only
  rw [herr]
  dsimp only
  rw [hs]

/-- The trailing `default_channel` fallback of `_get_matching_channels`
is dead code: the function returns exactly what its loop accumulated. -/
theorem getMatching_eq_loop (ev : Event) (cfg : List ChannelConfig) :
    getMatchingChannels ev cfg = matchingLoop ev cfg := by
  rw [getMatchingChannels]
  cases h : matchingLoop ev cfg with
  | error e => rw [exbind_error]
  | ok m =>
    rw [exbind_ok]
    dsimp only
    cases hm : m.isEmpty <;> simp [hm]

/-- A channel whose filter evaluation does not raise contributes either
nothing or itself to the matching list. -/
theorem channelStep_cases (ev : Event) (ch : ChannelConfig) (b : Bool)
    (hf : allFiltersMatch ev ch.filters = .ok b) :
    ∃ S, channelStep ev ch = .ok S ∧ (S = [] ∨ S = [ch]) := by
  rw [channelStep, hf]
  refine ⟨_, rfl, ?_⟩
  cases hfe : ch.filters.isEmpty <;> cases b <;> simp [hfe]

theorem matchingLoop_append_error (ev : Event) (pre x : List ChannelConfig) (e : PyErr)
    (h : matchingLoop ev pre = .error e) : matchingLoop ev (pre ++ x) = .error e := by
  induction pre with
  | nil => rw [matchingLoop] at h; exact absurd h (by simp)
  | cons c rest ih =>
    rw [matchingLoop] at h
    rw [List.cons_append, matchingLoop]
    cases hs : channelStep ev c with
    | error e2 =>
      rw [hs, exbind_error] at h
      injection h with h
      rw [exbind_error, h]
    | ok a =>
      rw [hs, exbind_ok] at h
      rw [exbind_ok]
      cases hr : matchingLoop ev rest with
      | error e2 =>
        rw [hr, exbind_error] at h
        injection h with h
        rw [h] at hr
        rw [ih hr, exbind_error]
      | ok r => rw [hr, exbind_ok] at h; exact absurd h (by simp)

theorem matchingLoop_append_ok (ev : Event) (pre : List ChannelConfig) :
    ∀ (A : List ChannelConfig) (x : List ChannelConfig),
      matchingLoop ev pre = .ok A →
      matchingLoop ev (pre ++ x) = (matchingLoop ev x).map (fun B => A ++ B) := by
  induction pre with
  | nil =>
    intro A x h
    rw [matchingLoop] at h
    injection h with h
    rw [List.nil_append, ← h]
    cases hx : matchingLoop ev x with
    | error e => rw [exmap_error]
    | ok B => rw [exmap_ok]; simp
  | cons c rest ih =>
    intro A x h
    rw [matchingLoop] at h
    rw [List.cons_append, matchingLoop]
    cases hs : channelStep ev c with
    | error e => rw [hs, exbind_error] at h; exact absurd h (by simp)
    | ok a =>
      rw [hs, exbind_ok] at h
      rw [exbind_ok]
      cases hr : matchingLoop ev rest with
      | error e => rw [hr, exbind_error] at h; exact absurd h (by simp)
      | ok r =>
        rw [hr, exbind_ok] at h
        injection h with h
        rw [ih r x hr]
        cases hx : matchingLoop ev x with
        | error e => rw [exmap_error, exbind_error, exmap_error]
        | ok B =>
          rw [exmap_ok, exbind_ok, exmap_ok, ← h]
          simp

/-- A channel that `notify_users` skips (`continue`) contributes no
dispatches, so removing it from the loop changes nothing. -/
theorem notifyLoop_skip (g : GroupCtx) (ev : Event) (dt : Template) (o : String)
    (ch : ChannelConfig) (hzero : channelDispatches g ev dt o ch = .ok []) :
    ∀ A B, notifyLoop g ev dt o (A ++ ch :: B) = notifyLoop g ev dt o (A ++ B) := by
  intro A
  induction A with
  | nil =>
    intro B
    rw [List.nil_append, List.nil_append, notifyLoop, hzero, exbind_ok]
    cases hb : notifyLoop g ev dt o B with
    | error e => rw [exbind_error]
    | ok ds => rw [exbind_ok]; simp
  | cons c rest ih =>
    intro B
    rw [List.cons_append, List.cons_append, notifyLoop, notifyLoop]
    cases hd : channelDispatches g ev dt o c with
    | error e => rw [exbind_error, exbind_error]
    | ok d => rw [exbind_ok, exbind_ok, ih B]

/-- A channel with missing `api_token`/`receivers`, or an empty parsed
receiver list, is skipped: it produces no dispatches and no error. -/
theorem channelDispatches_bad (g : GroupCtx) (ev : Event) (dt : Template) (o : String)
    (ch : ChannelConfig)
    (hbad : ch.api_token = "" ∨ ch.receivers = "" ∨ getReceiversList ch.receivers = []) :
    channelDispatches g ev dt o ch = .ok [] := by
  rw [channelDispatches]
  rcases hbad with h | h | h
  · rw [if_pos (by simp [h])]
  · rw [if_pos (by simp [h])]
  · split
    · rfl
    · rw [if_pos h]

/-- When no filtered channel fully matches, the loop accumulates exactly
the filterless channels, in declaration order. -/
theorem matchingLoop_nomatch (ev : Event) :
    ∀ cfg : List ChannelConfig,
      (∀ ch ∈ cfg, ch.filters ≠ [] → allFiltersMatch ev ch.filters = .ok false) →
      matchingLoop ev cfg = .ok (cfg.filter (fun ch => ch.filters.isEmpty)) := by
  intro cfg
  induction cfg with
  | nil => intro _; rfl
  | cons ch rest ih =>
    intro h
    have hrest := ih (fun c hc => h c (List.mem_cons_of_mem ch hc))
    rw [matchingLoop]
    cases hfe : ch.filters with
    | nil =>
      have hstep : channelStep ev ch = .ok [ch] := by
        rw [channelStep, hfe]
        rfl
      rw [hstep, exbind_ok, hrest, exbind_ok]
      simp [List.filter, hfe]
    | cons f fs =>
      have hstep : channelStep ev ch = .ok [] := by
        rw [channelStep]
        rw [h ch (List.mem_cons_self ch rest) (by rw [hfe]; simp), exbind_ok]
        rw [hfe]
        simp
      rw [hstep, exbind_ok, hrest, exbind_ok]
      simp [List.filter, hfe]

/-- The dispatcher with transport calls equals the pure dispatch list
decorated with per-receiver outcomes: which sends are attempted does not
depend on the transport's behavior. -/
theorem notifySendsLoop_eq (tr : Transport) (g : GroupCtx) (ev : Event) (dt : Template)
    (o : String) :
    ∀ chs : List ChannelConfig,
      notifySendsLoop tr g ev dt o chs =
        (notifyLoop g ev dt o chs).map
          (fun ds => ds.map (fun d => (d, sendOutcome tr d))) := by
  intro chs
  induction chs with
  | nil => rfl
  | cons ch rest ih =>
    rw [notifySendsLoop, notifyLoop]
    cases hd : channelDispatches g ev dt o ch with
    | error e => rw [exbind_error, exbind_error, exmap_error]
    | ok d =>
      rw [exbind_ok, exbind_ok, ih]
      cases hr : notifyLoop g ev dt o rest with
      | error e => rw [exmap_error, exbind_error, exbind_error, exmap_error]
      | ok ds =>
        rw [exmap_ok, exbind_ok, exbind_ok, exmap_ok]
        simp

/-- The early `if not channels_config: return` of `notify_users` is
subsumed by the empty-matching return, so the dispatcher factors through
the matching loop. -/
theorem notifyDispatches_eq (g : GroupCtx) (ev : Event) (cfg : List ChannelConfig)
    (dt : Template) (o : String) :
    notifyDispatches g ev cfg dt o =
      matchingLoop ev cfg >>=
        (fun m => if m.isEmpty then .ok [] else notifyLoop g ev dt o m) := by
  rw [notifyDispatches]
  by_cases hc : cfg.isEmpty = true
  · rw [if_pos hc]
    have hnil : cfg = [] := by
      cases cfg with
      | nil => rfl
      | cons a b => simp at hc
    subst hnil
    rfl
  · rw [if_neg hc, getMatching_eq_loop]

/-- The receiver loop of `get_receivers_list`, as a pipeline. -/
theorem receivers_foldl (parts : List (List Char)) :
    ∀ acc : List (List String),
      parts.foldl
        (fun acc part =>
          if pyStrip part = [] then acc else acc ++ [splitReceiverPart (pyStrip part)]) acc =
      acc ++ (((parts.map pyStrip).filter (fun p => p ≠ [])).map splitReceiverPart) := by
  induction parts with
  | nil => intro acc; simp
  | cons part rest ih =>
    intro acc
    rw [List.foldl_cons, List.map_cons, List.filter_cons]
    by_cases h : pyStrip part = []
    · rw [if_pos h, ih acc]
      simp [h]
    · rw [if_neg h, ih (acc ++ [splitReceiverPart (pyStrip part)])]
      simp [h, List.append_assoc]

/-- A filter list that fully matched contains no filter with missing
`type` or `value`. -/
theorem allFiltersMatch_true_wf (ev : Event) :
    ∀ fs : List ChannelFilter, allFiltersMatch ev fs = .ok true →
      ∀ f ∈ fs, f.ftype ≠ "" ∧ f.fvalue ≠ "" := by
  intro fs
  induction fs with
  | nil => intro _ f hf; simp at hf
  | cons f0 rest ih =>
    intro h f hf
    rw [allFiltersMatch] at h
    by_cases hmt : (f0.ftype = "" || f0.fvalue = "") = true
    · rw [if_pos hmt] at h
      exact absurd h (by simp)
    · rw [if_neg hmt] at h
      cases hm : matchFilter ev f0.ftype f0.fvalue with
      | error e => rw [hm, exbind_error] at h; exact absurd h (by simp)
      | ok b =>
        rw [hm, exbind_ok] at h
        cases b with
        | false => simp at h
        | true =>
          simp only [if_pos rfl] at h
          cases hf with
          | head =>
            constructor
            · intro he; exact hmt (by simp [he])
            · intro he; exact hmt (by simp [he])
          | tail _ hmem => exact ih h f hmem

/-- Everything `channelStep` appends is the channel itself, and it got
there either by having no filters or by all filters matching. -/
theorem channelStep_mem (ev : Event) (ch : ChannelConfig) (S : List ChannelConfig)
    (h : channelStep ev ch = .ok S) :
    ∀ c ∈ S, c = ch ∧ (ch.filters = [] ∨ allFiltersMatch ev ch.filters = .ok true) := by
  rw [channelStep] at h
  cases hf : allFiltersMatch ev ch.filters with
  | error e => rw [hf, exbind_error] at h; exact absurd h (by simp)
  | ok b =>
    rw [hf, exbind_ok] at h
    injection h with h
    intro c hc
    rw [← h] at hc
    by_cases hfe : ch.filters.isEmpty = true
    · have : ch.filters = [] := by
        cases hfil : ch.filters with
        | nil => rfl
        | cons a b => rw [hfil] at hfe; simp at hfe
      cases b <;> simp [hfe] at hc <;> exact ⟨hc, Or.inl this⟩
    · cases b with
      | false => simp [hfe] at hc
      | true =>
        simp [hfe] at hc
        exact ⟨hc, Or.inr rfl⟩

/-- Every channel the matching loop returns either has no filters or had
all its filters match. -/
theorem matchingLoop_mem (ev : Event) :
    ∀ (cfg res : List ChannelConfig), matchingLoop ev cfg = .ok res →
      ∀ c ∈ res, c.filters = [] ∨ allFiltersMatch ev c.filters = .ok true := by
  intro cfg
  induction cfg with
  | nil =>
    intro res h c hc
    rw [matchingLoop] at h
    injection h with h
    rw [← h] at hc
    simp at hc
  | cons ch rest ih =>
    intro res h c hc
    rw [matchingLoop] at h
    cases hs : channelStep ev ch with
    | error e => rw [hs, exbind_error] at h; exact absurd h (by simp)
    | ok S =>
      rw [hs, exbind_ok] at h
      cases hr : matchingLoop ev rest with
      | error e => rw [hr, exbind_error] at h; exact absurd h (by simp)
      | ok B =>
        rw [hr, exbind_ok] at h
        injection h with h
        rw [← h] at hc
        rcases List.mem_append.mp hc with hcS | hcB
        · obtain ⟨rfl, hor⟩ := channelStep_mem ev ch S hs c hcS
          exact hor
        · exact ih B hr c hcB

/-- `String.join` concatenates the character data. -/
theorem stringJoin_data_aux :
    ∀ (l : List String) (acc : String),
      (l.foldl (fun a s => a ++ s) acc).data = acc.data ++ (l.map String.data).flatten := by
  intro l
  induction l with
  | nil => intro acc; simp
  | cons s rest ih =>
    intro acc
    rw [List.foldl_cons, ih (acc ++ s)]
    simp [data_append]

/-! ### Claim theorems -/

/-- Claim C1: the spec states channel resolution is first-match-wins and
mutually exclusive — for every event at most one channel is notified,
the earliest fully matching filtered channel is the only one dispatched
to, and no default (filterless) channel is dispatched to alongside it;
in particular the scenario with filtered channel t1/c1 (regex__message
".*critical.*") followed by default channel t2/c2 and event message
"Something critical happened!" should produce exactly one dispatch, to
t1/c1.  The code violates this (and its own test
`test_notify_matching_filter_sends_to_filtered_channel`):
`_get_matching_channels` appends every fully matching filtered channel
AND every filterless channel, so `notify_users` dispatches to both
t1/c1 and t2/c2.  This theorem evaluates the embedded `notify_users` at
exactly that failing input: the result is two dispatches, the second to
the default channel. -/
theorem c1_scenario_dispatches_both :
    notifyDispatches {} { message := some "Something critical happened!" }
      [⟨"t1", "c1", none, none, [⟨"regex__message", ".*critical.*"⟩]⟩,
       ⟨"t2", "c2", none, none, []⟩]
      [TItem.msg] "https://api.telegram.org" =
    .ok [⟨"https://api.telegram.org/bott1/sendMessage",
          "Something critical happened!", ["c1"]⟩,
         ⟨"https://api.telegram.org/bott2/sendMessage",
          "Something critical happened!", ["c2"]⟩] := by decide

/-- Claim C2 counterexample: with two filterless channels and an event
no filter constrains, `_get_matching_channels` selects BOTH defaults —
a two-element resolution — not only the first one as the claim
states. -/
theorem c2_counterexample :
    getMatchingChannels { message := some "any" }
      [⟨"tA", "cA", none, none, []⟩, ⟨"tB", "cB", none, none, []⟩] =
      .ok [⟨"tA", "cA", none, none, []⟩, ⟨"tB", "cB", none, none, []⟩] ∧
    [(⟨"tA", "cA", none, none, []⟩ : ChannelConfig),
     ⟨"tB", "cB", none, none, []⟩].length = 2 :=
  ⟨by decide, by decide⟩

/-- Claim C2 (amended): for every event and ordered channel list in
which no channel with a non-empty filter set fully matches, resolution
selects ALL channels whose filter list is empty, in original declaration
order (not only the first); if no filterless channel exists, no channel
is resolved and no message is sent. -/
theorem c2_defaults_all_selected (ev : Event) (cfg : List ChannelConfig)
    (h : ∀ ch ∈ cfg, ch.filters ≠ [] → allFiltersMatch ev ch.filters = .ok false) :
    getMatchingChannels ev cfg = .ok (cfg.filter (fun ch => ch.filters.isEmpty)) ∧
    (cfg.filter (fun ch => ch.filters.isEmpty) = [] →
      ∀ (g : GroupCtx) (dt : Template) (o : String),
        notifyDispatches g ev cfg dt o = .ok []) := by
  have hm := matchingLoop_nomatch ev cfg h
  refine ⟨by rw [getMatching_eq_loop]; exact hm, ?_⟩
  intro hempty g dt o
  rw [notifyDispatches_eq, hm, exbind_ok, hempty]
  rfl

/-- Witness for `c2_defaults_all_selected` at a concrete configuration:
one filtered channel whose `level` filter does not match and no default
channel, so nothing is resolved and nothing is sent. -/
theorem c2_witness :
    getMatchingChannels { level := "warning" }
        [⟨"t1", "c1", none, none, [⟨"level", "error"⟩]⟩] =
      .ok ([(⟨"t1", "c1", none, none, [⟨"level", "error"⟩]⟩ : ChannelConfig)].filter
            (fun ch => ch.filters.isEmpty)) ∧
    ([(⟨"t1", "c1", none, none, [⟨"level", "error"⟩]⟩ : ChannelConfig)].filter
        (fun ch => ch.filters.isEmpty) = [] →
      ∀ (g : GroupCtx) (dt : Template) (o : String),
        notifyDispatches g { level := "warning" }
          [⟨"t1", "c1", none, none, [⟨"level", "error"⟩]⟩] dt o = .ok []) :=
  c2_defaults_all_selected { level := "warning" }
    [⟨"t1", "c1", none, none, [⟨"level", "error"⟩]⟩] (by decide)

/-- Claim C4: the spec states a malformed (uncompilable) regex filter
value evaluates as non-match without raising, so evaluation of the
remaining filters and channels proceeds.  The code violates this:
`_match_filter` calls `re.search` with no exception handling, so
`re.error` propagates out of `_get_matching_channels` and
`notify_users`.  This theorem evaluates the embedded code at the failing
input (filter `regex__message` with the uncompilable pattern `"["`):
the error escapes at every level instead of being treated as
non-match. -/
theorem c4_malformed_regex_raises :
    matchFilter { message := some "boom" } "regex__message" "[" = .error .reError ∧
    getMatchingChannels { message := some "boom" }
      [⟨"t", "c", none, none, [⟨"regex__message", "["⟩]⟩] = .error .reError ∧
    notifyDispatches {} { message := some "boom" }
      [⟨"t", "c", none, none, [⟨"regex__message", "["⟩]⟩] [TItem.msg] "o" =
      .error .reError :=
  ⟨by decide, by decide, by decide⟩

/-- Claim C6: receiver parsing splits on `";"`, trims whitespace, drops
empty segments, and splits each remaining segment on the first `"/"`:
the source loop equals the spec's pipeline on every input, and the
spec's three concrete vectors evaluate as stated. -/
theorem c6_receivers_parsing :
    (∀ s : String, getReceiversList s = parseReceiversSpec s) ∧
    getReceiversList "chat1;chat2/456" = [["chat1"], ["chat2", "456"]] ∧
    getReceiversList "" = [] ∧
    getReceiversList " ; ;chat1 " = [["chat1"]] := by
  refine ⟨?_, by decide, by decide, by decide⟩
  intro s
  rw [getReceiversList, parseReceiversSpec]
  by_cases hs : s = ""
  · subst hs
    rw [if_pos rfl]
    decide
  · rw [if_neg hs, receivers_foldl]
    simp

/-- Claim C7: per-receiver failure isolation.  For every transport
behavior (including raising exceptions or failing HTTP statuses on any
subset of receivers), the dispatcher attempts exactly the same sends:
`notify_users` with transport equals the pure dispatch list decorated
with per-receiver outcomes.  In particular a failure on one receiver
never prevents the send to a later receiver of the same channel, never
aborts the notify call, and transport errors never surface as
exceptions (`send_message` catches everything; only pre-transport
errors, which exist with or without transport, can escape). -/
theorem c7_transport_isolation (tr : Transport) (g : GroupCtx) (ev : Event)
    (cfg : List ChannelConfig) (dt : Template) (o : String) :
    notifySends tr g ev cfg dt o =
      (notifyDispatches g ev cfg dt o).map
        (fun ds => ds.map (fun d => (d, sendOutcome tr d))) := by
  rw [notifySends, notifyDispatches]
  by_cases hc : cfg.isEmpty = true
  · rw [if_pos hc, if_pos hc]
    rfl
  · rw [if_neg hc, if_neg hc]
    cases hm : getMatchingChannels ev cfg with
    | error e => rw [exbind_error, exbind_error, exmap_error]
    | ok m =>
      rw [exbind_ok, exbind_ok]
      by_cases hme : m.isEmpty = true
      · rw [if_pos hme, if_pos hme]
        rfl
      · rw [if_neg hme, if_neg hme, notifySendsLoop_eq]

/-- Claim C3 counterexample: the rendered message is NOT always ≤ 4096
characters.  Two concrete refuting inputs: (1) a template whose static
part is 4090 characters — the clamped body budget is 0, yet the marker
is still appended, producing 4105 characters; (2) a template with two
`{message}` fields and a 4090-character message — the budget is computed
as if the message appeared once, producing 8162 characters. -/
theorem c3_counterexample :
    (∃ s : String,
       compileMessageText [TItem.lit bigA, TItem.msg] [] [] "hello" = .ok s ∧
       TELEGRAM_MAX_MESSAGE_LENGTH < s.data.length) ∧
    (∃ s : String,
       compileMessageText [TItem.msg, TItem.msg] [] [] bigA = .ok s ∧
       TELEGRAM_MAX_MESSAGE_LENGTH < s.data.length) := by
  have hb : bigA.data.length = 4090 := by
    rw [show bigA.data = List.replicate 4090 'A' from rfl, List.length_replicate]
  constructor
  · have hfmt : ∀ m : String,
        formatT [TItem.lit bigA, TItem.msg] [] [] m = .ok (bigA ++ (m ++ "")) :=
      fun m => rfl
    have hlen : lenWithMarkerE [TItem.lit bigA, TItem.msg] [] [] = .ok 4105 := by
      rw [lenWithMarkerE, hfmt]
      dsimp only
      rw [show (bigA ++ (truncateWarningText ++ "")).data.length = 4105 by
        simp only [data_append, List.length_append, hb, marker_len, List.length_nil]]
    have hm0 : maxBodyLen 4105 = 0 := by decide
    have hEm : emAfter "hello" 4105 = pyTake "hello" 0 ++ truncateWarningText := by
      rw [emAfter, hm0, if_pos (by decide)]
    refine ⟨bigA ++ (emAfter "hello" 4105 ++ ""), ?_, ?_⟩
    · rw [compileMessageText, hlen]
      dsimp only
      rw [hfmt]
    · rw [hEm]
      simp only [TELEGRAM_MAX_MESSAGE_LENGTH, data_append, List.length_append, hb]
      decide
  · have hfmt2 : ∀ m : String,
        formatT [TItem.msg, TItem.msg] [] [] m = .ok (m ++ (m ++ "")) :=
      fun m => rfl
    have hlen2 : lenWithMarkerE [TItem.msg, TItem.msg] [] [] = .ok 30 := by
      rw [lenWithMarkerE, hfmt2]
      dsimp only
      rw [show (truncateWarningText ++ (truncateWarningText ++ "")).data.length = 30 by
        decide]
    have hm2 : maxBodyLen 30 = 4066 := by decide
    have hEm2 : emAfter bigA 30 = pyTake bigA 4066 ++ truncateWarningText := by
      rw [emAfter, hm2, if_pos (by rw [hb]; decide)]
    have hTakeLen : (pyTake bigA 4066).data.length = 4066 := by
      simp only [pyTake, mk_data, List.length_take, hb]
      omega
    have hEmLen : (emAfter bigA 30).data.length = 4081 := by
      rw [hEm2]
      simp only [data_append, List.length_append, hTakeLen, marker_len]
    refine ⟨emAfter bigA 30 ++ (emAfter bigA 30 ++ ""), ?_, ?_⟩
    · rw [compileMessageText, hlen2]
      dsimp only
      rw [hfmt2]
    · simp only [TELEGRAM_MAX_MESSAGE_LENGTH, data_append, List.length_append, hEmLen]
      omega

/-- Claim C3 (amended): the rendered message is ≤ 4096 characters, only
the message field is shrunk (other substituted fields are unchanged, up
to the single `"-"` fallback for a missing key) and the truncation
marker is appended — PROVIDED the template renders to at most 4096
characters when the marker itself is substituted for the message, and
the `{message}` placeholder occurs at most once. -/
theorem c3_length_bounded (t : Template) (p tg : List (String × String)) (em : String)
    (L : Nat) (hcount : msgCount t ≤ 1) (hlen : lenWithMarkerE t p tg = .ok L)
    (hfit : L ≤ TELEGRAM_MAX_MESSAGE_LENGTH) :
    ∃ s : String, compileMessageText t p tg em = .ok s ∧
      s.data.length ≤ TELEGRAM_MAX_MESSAGE_LENGTH ∧
      ∃ p2 em2, (p2 = p ∨ ∃ k, p2 = (k, "-") :: p) ∧
        (em2 = em ∨ em2 = pyTake em (maxBodyLen L) ++ truncateWarningText) ∧
        formatT t p2 tg em2 = .ok s :=
  compile_fits t p tg em L hcount hlen hfit

/-- Witness for `c3_length_bounded` at a concrete short template. -/
theorem c3_witness :
    ∃ s : String,
      compileMessageText [TItem.lit "Hi: ", TItem.msg] [] [] "hello" = .ok s ∧
      s.data.length ≤ TELEGRAM_MAX_MESSAGE_LENGTH ∧
      ∃ p2 em2, (p2 = [] ∨ ∃ k, p2 = (k, "-") :: []) ∧
        (em2 = "hello" ∨ em2 = pyTake "hello" (maxBodyLen 19) ++ truncateWarningText) ∧
        formatT [TItem.lit "Hi: ", TItem.msg] p2 [] em2 = .ok s :=
  c3_length_bounded [TItem.lit "Hi: ", TItem.msg] [] [] "hello" 19
    (by decide) (by decide) (by decide)

/-- Claim C5 counterexample: with two distinct missing non-tag fields
the renderer raises `KeyError` — the single retry of
`compile_message_text` covers only the first missing key, so the claim's
"any number of distinct missing placeholders" fails. -/
theorem c5_counterexample :
    compileMessageText [TItem.field "a", TItem.field "b"] [] [] "m" =
      .error (.keyError "b") := by decide

/-- Claim C5 (amended): rendering a template with exactly one distinct
missing non-tag field never raises: the renderer substitutes the
fallback `"-"` for it, retries, and returns the template rendered under
the fallback-extended mapping (with two or more distinct missing fields
it raises, see the counterexample). -/
theorem c5_single_missing_recovers (t : Template) (p tg : List (String × String))
    (em : String) (k : String) (h : missingFields t p = [k]) :
    ∃ em2 s, compileMessageText t p tg em = .ok s ∧
      formatT t ((k, "-") :: p) tg em2 = .ok s :=
  compile_one_missing t p tg em k h

/-- Witness for `c5_single_missing_recovers` at a concrete template. -/
theorem c5_witness :
    ∃ em2 s, compileMessageText [TItem.field "x", TItem.msg] [] [] "m" = .ok s ∧
      formatT [TItem.field "x", TItem.msg] (("x", "-") :: []) [] em2 = .ok s :=
  c5_single_missing_recovers [TItem.field "x", TItem.msg] [] [] "m" "x" (by decide)

/-- Claim C8 counterexample: in the integration's
`_channel_matches_filters` a filter with missing `type` (or missing
`value`) is SKIPPED (`continue`), i.e. treated as passing, so a channel
whose only filter is malformed DOES match via its filter set —
refuting "never satisfiable ... never always-true or skipped" for that
matcher. -/
theorem c8_counterexample :
    channelMatchesFilters { message := some "m" } [⟨"", ".*nope.*"⟩] = .ok true ∧
    channelMatchesFilters { message := some "m" } [⟨"regex__message", ""⟩] = .ok true :=
  ⟨by decide, by decide⟩

/-- Claim C8 (amended): in the plugin's `_get_matching_channels` a
filter with missing (empty) `type` or `value` is never satisfiable:
every filter of every channel in the resolver's result is well-formed,
so a channel containing such a filter never matches via its filter set
and is never promoted to default status (its filter list is non-empty).
In the integration's `_channel_matches_filters`, however, such a filter
is skipped and counts as passing. -/
theorem c8_malformed_filters :
    (∀ (ev : Event) (cfg res : List ChannelConfig),
       getMatchingChannels ev cfg = .ok res →
       ∀ ch ∈ res, ∀ f ∈ ch.filters, f.ftype ≠ "" ∧ f.fvalue ≠ "") ∧
    channelMatchesFilters { message := some "m" } [⟨"", "x"⟩] = .ok true := by
  constructor
  · intro ev cfg res h ch hch f hf
    rw [getMatching_eq_loop] at h
    rcases matchingLoop_mem ev cfg res h ch hch with hnil | hok
    · rw [hnil] at hf
      simp at hf
    · exact allFiltersMatch_true_wf ev ch.filters hok f hf
  · decide

/-- Witness for `c8_malformed_filters` at a concrete resolved channel. -/
theorem c8_witness : ("level" : String) ≠ "" ∧ ("error" : String) ≠ "" :=
  c8_malformed_filters.1 { level := "error" }
    [⟨"t", "c", none, none, [⟨"level", "error"⟩]⟩]
    [⟨"t", "c", none, none, [⟨"level", "error"⟩]⟩]
    (by decide) ⟨"t", "c", none, none, [⟨"level", "error"⟩]⟩ (by decide)
    ⟨"level", "error"⟩ (by decide)

/-- Claim C9: at notify time, a resolved channel whose configuration
lacks `api_token` or `receivers`, or whose receivers string parses to an
empty receiver list, is skipped without raising and without affecting
the remaining channels: deleting such a channel from the configuration
leaves the dispatcher's output unchanged (its own filter evaluation must
not raise, since the skip happens only after matching). -/
theorem c9_bad_channel_skipped (g : GroupCtx) (ev : Event) (dt : Template) (o : String)
    (ch : ChannelConfig) (pre post : List ChannelConfig)
    (hbad : ch.api_token = "" ∨ ch.receivers = "" ∨ getReceiversList ch.receivers = [])
    (hfb : ∃ b, allFiltersMatch ev ch.filters = .ok b) :
    notifyDispatches g ev (pre ++ ch :: post) dt o =
      notifyDispatches g ev (pre ++ post) dt o := by
  obtain ⟨b, hf⟩ := hfb
  obtain ⟨S, hS, hSor⟩ := channelStep_cases ev ch b hf
  have hzero := channelDispatches_bad g ev dt o ch hbad
  rw [notifyDispatches_eq, notifyDispatches_eq]
  cases hpre : matchingLoop ev pre with
  | error e =>
    rw [matchingLoop_append_error ev pre (ch :: post) e hpre,
        matchingLoop_append_error ev pre post e hpre, exbind_error]
  | ok A =>
    cases hpost : matchingLoop ev post with
    | error e =>
      have h1 : matchingLoop ev (ch :: post) = .error e := by
        rw [matchingLoop, hS, exbind_ok, hpost, exbind_error]
      rw [matchingLoop_append_ok ev pre A (ch :: post) hpre, h1, exmap_error,
          matchingLoop_append_ok ev pre A post hpre, hpost, exmap_error,
          exbind_error]
    | ok B =>
      have h1 : matchingLoop ev (ch :: post) = .ok (S ++ B) := by
        rw [matchingLoop, hS, exbind_ok, hpost, exbind_ok]
      rw [matchingLoop_append_ok ev pre A (ch :: post) hpre, h1, exmap_ok,
          matchingLoop_append_ok ev pre A post hpre, hpost, exmap_ok,
          exbind_ok, exbind_ok]
      rcases hSor with h0 | h1c
      · rw [h0]
        simp
      · rw [h1c]
        by_cases hAB : (A ++ B).isEmpty = true
        · obtain ⟨hA, hB⟩ := List.append_eq_nil.mp (by simpa using hAB)
          subst hA
          subst hB
          rw [if_neg (by simp), if_pos (by simp)]
          rw [show ([] : List ChannelConfig) ++ ([ch] ++ []) = [ch] by simp]
          rw [notifyLoop, hzero, exbind_ok, notifyLoop, exbind_ok]
          simp
        · rw [if_neg (by simp), if_neg hAB, List.singleton_append]
          exact notifyLoop_skip g ev dt o ch hzero A B

/-- Witness for `c9_bad_channel_skipped`: a filterless channel with an
api token but a receivers string of only separators (parsing to no
receivers) sits between two good channels and changes nothing. -/
theorem c9_witness :
    notifyDispatches {} { message := some "x" }
        [⟨"tA", "cA", none, none, []⟩, ⟨"tBad", " ; ", none, none, []⟩,
         ⟨"tB", "cB", none, none, []⟩] [TItem.msg] "o" =
      notifyDispatches {} { message := some "x" }
        [⟨"tA", "cA", none, none, []⟩, ⟨"tB", "cB", none, none, []⟩] [TItem.msg] "o" :=
  c9_bad_channel_skipped {} { message := some "x" } [TItem.msg] "o"
    ⟨"tBad", " ; ", none, none, []⟩
    [⟨"tA", "cA", none, none, []⟩] [⟨"tB", "cB", none, none, []⟩]
    (by decide) ⟨true, by decide⟩

/-- Claim C10: before template substitution, the event title (after
truncation to 500 characters) and the event message are Markdown-v1
escaped — every occurrence of underscore, asterisk, backtick or opening
bracket is replaced by that character preceded by a backslash, and no
other character is altered; an absent or empty event message is replaced
by the fixed placeholder "пустое сообщение :(" (which contains no
special characters, so it passes through escaping unchanged). -/
theorem c10_markdown_escape :
    (∀ s : String, (escapeMarkdownV1 s).data =
       (s.data.map (fun c => if c ∈ specialChars then ['\\', c] else [c])).flatten) ∧
    (∀ (g : GroupCtx) (ev : Event),
       lookupS "title" (buildMessageParams g ev) =
         some (escapeMarkdownV1 (truncatechars ev.title EVENT_TITLE_MAX_LENGTH))) ∧
    escapeMarkdownV1 (eventMessageOrPlaceholder none) = "пустое сообщение :(" ∧
    escapeMarkdownV1 (eventMessageOrPlaceholder (some "")) = "пустое сообщение :(" ∧
    (∀ (g : GroupCtx) (ev : Event) (tmpl : Template),
       buildMessage g ev tmpl =
         compileMessageText tmpl (buildMessageParams g ev) (dictOf ev.tags)
           (escapeMarkdownV1 (eventMessageOrPlaceholder ev.message))) := by
  refine ⟨?_, fun g ev => rfl, by decide, by decide, fun g ev tmpl => rfl⟩
  intro s
  have h1 := stringJoin_data_aux
    (s.data.map (fun c => if c ∈ specialChars then String.mk ['\\', c] else String.mk [c]))
    ""
  rw [escapeMarkdownV1]
  rw [show String.join
      (s.data.map (fun c => if c ∈ specialChars then String.mk ['\\', c] else String.mk [c])) =
      (s.data.map (fun c => if c ∈ specialChars then String.mk ['\\', c] else String.mk [c])).foldl
        (fun a s => a ++ s) "" from rfl]
  rw [h1, List.map_map]
  rw [show ("" : String).data = [] from rfl, List.nil_append]
  congr 1
  apply List.map_congr_left
  intro c _
  by_cases h : c ∈ specialChars <;> simp [Function.comp, h, mk_data]

end SentryTelegramPlus
